import Mathlib

/-
Shallow embedding of the telraam-rs client library
(src/response.rs, src/endpoint.rs, src/client.rs, src/error.rs, src/lib.rs).

Modelling conventions:
  * JSON values are the inductive `Json` below; JSON objects are ordered
    association lists of (key, value) pairs, and serde's by-name field access
    is modelled by first-match lookup (`jlookup`).
  * `SystemTime` is modelled as a `Nat`: nanoseconds since the Unix epoch
    (every time handled by the library is on or after the epoch, and
    humantime only formats / parses such times).
  * Rust's `f32` payload fields (traffic counts, histograms) are modelled as
    exact rationals `Rat`: no claim computes with them, they are only carried
    through unchanged, and JSON number literals are decimal.
  * The `geojson::GeoJson` payload of the snapshot / segment responses is an
    external crate's document type; it is modelled as a raw `Json` value, it
    is likewise only carried through unchanged.
  * The behaviour of the external codec crates `humantime` /
    `humantime_serde` (RFC3339 parsing and formatting used by the
    `#[serde(with = "humantime_serde")]` fields and by
    `format_rfc3339_millis`) is embedded from humantime 2.x: the musl-derived
    civil-date algorithm for formatting, and the fixed-position digit parser
    for parsing.  Rust i64 `/` and `%` (truncated division) are modelled by
    `Int.tdiv` / `Int.tmod`.
-/

namespace Telraam

/-- Minimal JSON value model (serde_json values as far as this library needs
them; numbers that occur in the claims are integers). -/
inductive Json where
  | null : Json
  | bool (b : Bool) : Json
  | num (n : Int) : Json
  | str (s : String) : Json
  | arr (xs : List Json) : Json
  | obj (fields : List (String × Json)) : Json

/-- First-match lookup of a key in a JSON object's field list (serde reads a
field from the map entry having the field's name). -/
def jlookup : List (String × Json) → String → Option Json
  | [], _ => none
  | (k, v) :: rest, key => if k = key then some v else jlookup rest key

/-- Deserialization errors (serde decode failures as far as this library
distinguishes them). `unknownVariant` mirrors serde's
`de::Error::unknown_variant(v, &["yes", "no"])`, which carries the offending
value and the expected variants. -/
inductive DeErr where
  | missingField (name : String) : DeErr
  | invalidType (found : Json) : DeErr
  | invalidValue (found : Json) : DeErr
  | unknownVariant (v : String) (expected : List String) : DeErr
  | invalidTimestamp (s : String) : DeErr

/-- src/response.rs `Status`: `status_code: usize` (serde default) and
`message: String` (serde alias "msg"). -/
structure Status where
  status_code : Nat
  message : String
deriving DecidableEq

/-- src/error.rs `Error`: the only variant is `Non200Response(Status)`. -/
inductive Error where
  | non200Response (s : Status) : Error
deriving DecidableEq

/-- src/error.rs: the thiserror display string
`status_code:{}:{}` with the status code and message. -/
def Error.displayMessage : Error → String
  | .non200Response s => "status_code:" ++ toString s.status_code ++ ":" ++ s.message

/-- src/response.rs `Status::try_to_error`: `Ok(())` when
`status_code <= 299`, else `Err(Error::Non200Response(self.clone()))`. -/
def Status.try_to_error (s : Status) : Except Error Unit :=
  if s.status_code ≤ 299 then .ok () else .error (.non200Response s)

/-- src/response.rs `Status::try_into_error`: identical check on the owned
status. -/
def Status.try_into_error (s : Status) : Except Error Unit :=
  if s.status_code ≤ 299 then .ok () else .error (.non200Response s)

/-- src/response.rs `Report` (payload record of the traffic endpoint).
`SystemTime` fields are nanoseconds since the epoch; `f32` fields are
modelled as rationals (see file header). -/
structure Report where
  instance_id : Int
  segment_id : Int
  date : Nat
  interval : String
  uptime : Rat
  heavy : Rat
  car : Rat
  bike : Rat
  pedestrian : Rat
  heavy_lft : Rat
  heavy_rgt : Rat
  car_lft : Rat
  car_rgt : Rat
  bike_lft : Rat
  bike_rgt : Rat
  pedestrian_lft : Rat
  pedestrian_rgt : Rat
  direction : Nat
  timezone : String
  car_speed_hist_0to70plus : List Rat
  car_speed_hist_0to120plus : List Rat
  v85 : Rat
deriving DecidableEq

/-- src/response.rs `Camera` (payload record of the camera endpoints). -/
structure Camera where
  instance_id : Int
  mac : Nat
  user_id : Int
  segment_id : Int
  direction : Bool
  status : String
  manual : Bool
  time_added : Nat
  time_end : Option Nat
  last_data_package : Nat
  first_data_package : Nat
  pedestrians_left : Bool
  pedestrians_right : Bool
  bikes_left : Bool
  bikes_right : Bool
  cars_left : Bool
  cars_right : Bool
  is_calibration_done : Bool
deriving DecidableEq

/-- The `geojson::GeoJson` document payload, modelled as a raw JSON value. -/
abbrev GeoJson := Json

/-- src/response.rs `WelcomeResponse`: a flattened `Status` only. -/
structure WelcomeResponse where
  status : Status
deriving DecidableEq

/-- src/response.rs `TrafficResponse`: flattened `Status` plus the
`report`-named list of `Report`. -/
structure TrafficResponse where
  status : Status
  reports : List Report
deriving DecidableEq

/-- src/response.rs `TrafficSnapshotResponse`: flattened `Status` plus a
flattened GeoJSON document. -/
structure TrafficSnapshotResponse where
  status : Status
  geo : GeoJson

/-- src/response.rs `CamerasResponse`: flattened `Status` plus the camera
list (field "cameras", serde alias "camera"). -/
structure CamerasResponse where
  status : Status
  cameras : List Camera
deriving DecidableEq

/-- src/response.rs `SegmentResponse`: flattened `Status` plus a flattened
GeoJSON document. -/
structure SegmentResponse where
  status : Status
  segment : GeoJson

/-- src/response.rs `TrafficResponse::reports` (borrowing accessor):
`self.status.try_to_error()?` then `Ok(&self.reports)`. -/
def TrafficResponse.checked_reports (r : TrafficResponse) : Except Error (List Report) := do
  r.status.try_to_error
  .ok r.reports

/-- src/response.rs `TrafficResponse::take_reports` (consuming accessor):
`self.status.try_into_error()?` then `Ok(self.reports)`. -/
def TrafficResponse.take_reports (r : TrafficResponse) : Except Error (List Report) := do
  r.status.try_into_error
  .ok r.reports

/-- src/response.rs `TrafficSnapshotResponse::snapshot`. -/
def TrafficSnapshotResponse.snapshot (r : TrafficSnapshotResponse) : Except Error GeoJson := do
  r.status.try_to_error
  .ok r.geo

/-- src/response.rs `TrafficSnapshotResponse::take_snapshot`. -/
def TrafficSnapshotResponse.take_snapshot (r : TrafficSnapshotResponse) : Except Error GeoJson := do
  r.status.try_into_error
  .ok r.geo

/-- src/response.rs `CamerasResponse::cameras` (borrowing accessor). -/
def CamerasResponse.checked_cameras (r : CamerasResponse) : Except Error (List Camera) := do
  r.status.try_to_error
  .ok r.cameras

/-- src/response.rs `CamerasResponse::take_cameras`. -/
def CamerasResponse.take_cameras (r : CamerasResponse) : Except Error (List Camera) := do
  r.status.try_into_error
  .ok r.cameras

/-- src/response.rs `SegmentResponse::segments` (borrowing accessor). -/
def SegmentResponse.segments (r : SegmentResponse) : Except Error GeoJson := do
  r.status.try_to_error
  .ok r.segment

/-- src/response.rs `SegmentResponse::take_segments`. -/
def SegmentResponse.take_segments (r : SegmentResponse) : Except Error GeoJson := do
  r.status.try_into_error
  .ok r.segment

/-- src/response.rs `from_yes_no`: `deserialize_str` with a visitor whose
`visit_str` maps "yes" to true, "no" to false, and any other string to
`unknown_variant(v, &["yes","no"])`; any non-string JSON input is a serde
invalid-type error (the visitor implements only `visit_str`). -/
def from_yes_no (j : Json) : Except DeErr Bool :=
  match j with
  | .str v =>
    if v = "yes" then .ok true
    else if v = "no" then .ok false
    else .error (.unknownVariant v ["yes", "no"])
  | other => .error (.invalidType other)

/-- src/response.rs `to_yes_no`: serializes `true` as the string "yes" and
`false` as the string "no". -/
def to_yes_no (value : Bool) : Json :=
  if value then .str "yes" else .str "no"

/-- One ASCII digit to its value (humantime checks `b'0' <= b && b <= b'9'`
and subtracts `b'0'`); any other character is a parse failure. -/
def digit? (c : Char) : Option Nat :=
  if '0' ≤ c ∧ c ≤ '9' then some (c.toNat - 48) else none

/-- humantime's fractional-second loop: after the '.', digits accumulate
`nanos += mult * d; mult /= 10` starting from `mult = 100_000_000`; a 'Z' is
accepted only as the final character. -/
def parseFrac : List Char → Nat → Nat → Option Nat
  | [], _, nanos => some nanos
  | 'Z' :: rest, _, nanos => if rest.isEmpty then some nanos else none
  | c :: rest, mult, nanos =>
    match digit? c with
    | some d => parseFrac rest (mult / 10) (nanos + mult * d)
    | none => none

/-- humantime `is_leap_year`. -/
def is_leap_year (y : Nat) : Bool := y % 4 == 0 && (y % 100 != 0 || y % 400 == 0)

/-- humantime's per-month table used when parsing: cumulative days before
the month (non-leap) and the month's length. -/
def monthDays (leap : Bool) : Nat → Option (Nat × Nat)
  | 1 => some (0, 31)
  | 2 => some (31, if leap then 29 else 28)
  | 3 => some (59, 31)
  | 4 => some (90, 30)
  | 5 => some (120, 31)
  | 6 => some (151, 30)
  | 7 => some (181, 31)
  | 8 => some (212, 31)
  | 9 => some (243, 30)
  | 10 => some (273, 31)
  | 11 => some (304, 30)
  | 12 => some (334, 31)
  | _ => none

/-- humantime's two-digit field reader: both characters must be ASCII
digits. -/
def two_digits (c1 c2 : Char) : Option Nat := do
  let a ← digit? c1
  let b ← digit? c2
  some (a * 10 + b)

/-- The four year digits of the fixed-position parse. -/
def four_digits (c1 c2 c3 c4 : Char) : Option Nat := do
  let hi ← two_digits c1 c2
  let lo ← two_digits c3 c4
  some (hi * 100 + lo)

/-- The `YYYY-MM-DD` prefix of the weak parse: year digits, '-', month
digits, '-', day digits (humantime's check order). -/
def parseDatePart (y1 y2 y3 y4 sep1 mo1 mo2 sep2 d1 d2 : Char) :
    Option (Nat × Nat × Nat) := do
  let year ← four_digits y1 y2 y3 y4
  guard (sep1 = '-')
  let month ← two_digits mo1 mo2
  guard (sep2 = '-')
  let day ← two_digits d1 d2
  some (year, month, day)

/-- The `HH:MM:SS` part of the weak parse. -/
def parseTimePart (h1 h2 sep3 mi1 mi2 sep4 sc1 sc2 : Char) :
    Option (Nat × Nat × Nat) := do
  let hour ← two_digits h1 h2
  guard (sep3 = ':')
  let minute ← two_digits mi1 mi2
  guard (sep4 = ':')
  let second ← two_digits sc1 sc2
  some (hour, minute, second)

/-- After index 19 of the weak parse: nothing (length exactly 19), a
fractional part introduced by '.', or a lone trailing 'Z'. -/
def parseAfterSeconds : List Char → Option Nat
  | [] => some 0
  | '.' :: frac => parseFrac frac 100000000 0
  | ['Z'] => some 0
  | _ => none

/-- humantime's range checks and epoch arithmetic: year at least 1970,
month / day / hour / minute in range, seconds up to 60, day within the
month, then days-since-epoch via the counted leap years; returns
nanoseconds since the Unix epoch. -/
def toEpochNanos (year month day hour minute second nanos : Nat) : Option Nat := do
  guard (1970 ≤ year)
  guard (1 ≤ month ∧ month ≤ 12 ∧ 1 ≤ day ∧ day ≤ 31 ∧
         hour ≤ 23 ∧ minute ≤ 59 ∧ second ≤ 60)
  let leap := is_leap_year year
  let (ydays0, mdays) ← monthDays leap month
  guard (day ≤ mdays)
  let ydays := ydays0 + day - 1
  let ydays := if leap ∧ month > 2 then ydays + 1 else ydays
  let leap_years :=
    ((year - 1) - 1968) / 4 - ((year - 1) - 1900) / 100 + ((year - 1) - 1600) / 400
  let days := (year - 1970) * 365 + leap_years + ydays
  let time := second + minute * 60 + hour * 3600
  some ((time + days * 86400) * 1000000000 + nanos)

/-- humantime `parse_rfc3339_weak`: fixed-position `YYYY-MM-DD[T ]HH:MM:SS`
with an optional fractional part and optional trailing 'Z'; returns
nanoseconds since the Unix epoch. -/
def parse_rfc3339_weak (s : String) : Option Nat :=
  match s.data with
  | y1 :: y2 :: y3 :: y4 :: sep1 :: mo1 :: mo2 :: sep2 :: d1 :: d2 :: sepT ::
      h1 :: h2 :: sep3 :: mi1 :: mi2 :: sep4 :: sc1 :: sc2 :: rest => do
    let (year, month, day) ← parseDatePart y1 y2 y3 y4 sep1 mo1 mo2 sep2 d1 d2
    guard (sepT = 'T' ∨ sepT = ' ')
    let (hour, minute, second) ← parseTimePart h1 h2 sep3 mi1 mi2 sep4 sc1 sc2
    let nanos ← parseAfterSeconds rest
    toEpochNanos year month day hour minute second nanos
  | _ => none

/-- humantime `parse_rfc3339` (the strict form used by humantime_serde's
`SystemTime` codec): at least 20 characters, 'T' at index 10, final 'Z',
then the weak parse. -/
def parse_rfc3339 (s : String) : Option Nat :=
  if s.length < 20 then none
  else if s.data[10]? ≠ some 'T' then none
  else if s.data.getLast? ≠ some 'Z' then none
  else parse_rfc3339_weak s

/-- ASCII digit character (humantime writes the byte b'0' + n). -/
def digitChar (n : Nat) : Char := Char.ofNat (48 + n)

/-- Two-digit zero-padded field of the RFC3339 template. -/
def pad2 (n : Nat) : String := String.mk [digitChar (n / 10), digitChar (n % 10)]

/-- Four-digit year field (humantime writes year/1000, year/100%10,
year/10%10, year%10). -/
def pad4 (n : Nat) : String :=
  String.mk [digitChar (n / 1000), digitChar (n / 100 % 10),
             digitChar (n / 10 % 10), digitChar (n % 10)]

/-- Three-digit millisecond field (humantime writes millis/100,
millis/10%10, millis%10). -/
def pad3millis (ms : Nat) : String :=
  String.mk [digitChar (ms / 100), digitChar (ms / 10 % 10), digitChar (ms % 10)]

/-- The formatter's month loop over the March-first month lengths:
increments the month, stops when the remaining days fit. -/
def monthFromMarch : List Int → Int → Nat → Nat × Int
  | [], remdays, mon => (mon, remdays)
  | len :: rest, remdays, mon =>
    if remdays < len then (mon + 1, remdays)
    else monthFromMarch rest (remdays - len) (mon + 1)

/-- Year/month/day from seconds since the epoch: the musl-derived algorithm
in humantime's RFC3339 formatter (LEAPOCH 11017 = 2000-03-01, 400/100/4-year
cycles), with Rust i64 truncated division (`Int.tdiv` / `Int.tmod`). -/
def civilFromSecs (secs_since_epoch : Nat) : Nat × Nat × Nat :=
  let days : Int := (secs_since_epoch / 86400 : Nat) - 11017
  let qc_cycles := days.tdiv 146097
  let remdays := days.tmod 146097
  let (remdays, qc_cycles) :=
    if remdays < 0 then (remdays + 146097, qc_cycles - 1) else (remdays, qc_cycles)
  let c_cycles := remdays.tdiv 36524
  let c_cycles := if c_cycles = 4 then c_cycles - 1 else c_cycles
  let remdays := remdays - c_cycles * 36524
  let q_cycles := remdays.tdiv 1461
  let q_cycles := if q_cycles = 25 then q_cycles - 1 else q_cycles
  let remdays := remdays - q_cycles * 1461
  let remyears := remdays.tdiv 365
  let remyears := if remyears = 4 then remyears - 1 else remyears
  let remdays := remdays - remyears * 365
  let year := 2000 + remyears + 4 * q_cycles + 100 * c_cycles + 400 * qc_cycles
  let (mon, remdays) := monthFromMarch [31,30,31,30,31,31,30,31,30,31,31,29] remdays 0
  let mday := remdays + 1
  let (year, mon) := if mon + 2 > 12 then (year + 1, mon - 10) else (year, mon + 2)
  (year.toNat, mon, mday.toNat)

/-- src/endpoint.rs `format_rfc3339_millis` delegates to humantime's
millisecond-precision RFC3339 formatter: the 24-character template
0000-00-00T00:00:00.000Z; formatting fails (fmt::Error) for times at or
past year 10000 (253402300800 seconds since the epoch). -/
def format_rfc3339_millis (t : Nat) : Option String :=
  let secs := t / 1000000000
  let nanos := t % 1000000000
  if secs ≥ 253402300800 then none
  else
    let (year, mon, mday) := civilFromSecs secs
    let secs_of_day := secs % 86400
    let millis := nanos / 1000000
    some (pad4 year ++ "-" ++ pad2 mon ++ "-" ++ pad2 mday ++ "T" ++
      pad2 (secs_of_day / 3600) ++ ":" ++ pad2 (secs_of_day / 60 % 60) ++ ":" ++
      pad2 (secs_of_day % 60) ++ "." ++ pad3millis millis ++ "Z")

/-- serde: read a required field of a struct from the object map. -/
def getField (fields : List (String × Json)) (name : String) : Except DeErr Json :=
  match jlookup fields name with
  | some v => .ok v
  | none => .error (.missingField name)

/-- serde: a `String` field must come from a JSON string. -/
def asStr : Json → Except DeErr String
  | .str s => .ok s
  | other => .error (.invalidType other)

/-- serde: a `bool` field must come from a JSON boolean. -/
def asBool : Json → Except DeErr Bool
  | .bool b => .ok b
  | other => .error (.invalidType other)

/-- serde: an `isize` field must come from a JSON integer. -/
def asInt : Json → Except DeErr Int
  | .num n => .ok n
  | other => .error (.invalidType other)

/-- serde: a `usize` field must come from a non-negative JSON integer. -/
def asNat : Json → Except DeErr Nat
  | .num n => if n < 0 then .error (.invalidValue (.num n)) else .ok n.toNat
  | other => .error (.invalidType other)

/-- humantime_serde's `SystemTime` codec: `deserialize_str`, then the strict
`humantime::parse_rfc3339`. -/
def asSystemTime : Json → Except DeErr Nat
  | .str s =>
    match parse_rfc3339 s with
    | some t => .ok t
    | none => .error (.invalidTimestamp s)
  | other => .error (.invalidType other)

/-- humantime_serde's `Option<SystemTime>` codec: JSON null decodes to the
absent value, anything else goes through the `SystemTime` codec. -/
def asOptSystemTime : Json → Except DeErr (Option Nat)
  | .null => .ok none
  | j => do
    let t ← asSystemTime j
    .ok (some t)

/-- serde decode of the flattened `Status`: `status_code` is a usize
carrying the serde default attribute, so an absent field maps to 0;
`message` may also arrive
under its serde alias "msg"; sibling fields are ignored (the struct is
flattened into every response type). -/
def deserializeStatus (fs : List (String × Json)) : Except DeErr Status := do
  let code ←
    match jlookup fs "status_code" with
    | none => Except.ok 0
    | some j => asNat j
  let msg ←
    match jlookup fs "message" with
    | some j => asStr j
    | none =>
      match jlookup fs "msg" with
      | some j => asStr j
      | none => Except.error (.missingField "message")
  Except.ok ⟨code, msg⟩

/-- serde decode of `WelcomeResponse`: only the flattened `Status`. -/
def deserializeWelcomeResponse (j : Json) : Except DeErr WelcomeResponse :=
  match j with
  | .obj fs => do
    let s ← deserializeStatus fs
    Except.ok ⟨s⟩
  | other => .error (.invalidType other)

/-- The identifier fields of a `Camera`. -/
def decodeCameraIds (fs : List (String × Json)) : Except DeErr (Int × Nat × Int × Int) := do
  let instance_id ← getField fs "instance_id" >>= asInt
  let mac ← getField fs "mac" >>= asNat
  let user_id ← getField fs "user_id" >>= asInt
  let segment_id ← getField fs "segment_id" >>= asInt
  Except.ok (instance_id, mac, user_id, segment_id)

/-- The four humantime_serde timestamp fields of a `Camera`; `time_end` is
the nullable one. -/
def decodeCameraTimes (fs : List (String × Json)) :
    Except DeErr (Nat × Option Nat × Nat × Nat) := do
  let time_added ← getField fs "time_added" >>= asSystemTime
  let time_end ← getField fs "time_end" >>= asOptSystemTime
  let last_data_package ← getField fs "last_data_package" >>= asSystemTime
  let first_data_package ← getField fs "first_data_package" >>= asSystemTime
  Except.ok (time_added, time_end, last_data_package, first_data_package)

/-- The six field-of-view boolean fields of a `Camera`. -/
def decodeCameraFov (fs : List (String × Json)) :
    Except DeErr (Bool × Bool × Bool × Bool × Bool × Bool) := do
  let pedestrians_left ← getField fs "pedestrians_left" >>= asBool
  let pedestrians_right ← getField fs "pedestrians_right" >>= asBool
  let bikes_left ← getField fs "bikes_left" >>= asBool
  let bikes_right ← getField fs "bikes_right" >>= asBool
  let cars_left ← getField fs "cars_left" >>= asBool
  let cars_right ← getField fs "cars_right" >>= asBool
  Except.ok (pedestrians_left, pedestrians_right, bikes_left, bikes_right,
    cars_left, cars_right)

/-- serde decode of a `Camera` record: every field by name, the timestamps
through humantime_serde, `is_calibration_done` through `from_yes_no`. -/
def decodeCamera (j : Json) : Except DeErr Camera :=
  match j with
  | .obj fs => do
    let (instance_id, mac, user_id, segment_id) ← decodeCameraIds fs
    let direction ← getField fs "direction" >>= asBool
    let status ← getField fs "status" >>= asStr
    let manual ← getField fs "manual" >>= asBool
    let (time_added, time_end, last_data_package, first_data_package) ←
      decodeCameraTimes fs
    let (pedestrians_left, pedestrians_right, bikes_left, bikes_right,
      cars_left, cars_right) ← decodeCameraFov fs
    let is_calibration_done ← getField fs "is_calibration_done" >>= from_yes_no
    Except.ok ⟨instance_id, mac, user_id, segment_id, direction, status, manual,
      time_added, time_end, last_data_package, first_data_package,
      pedestrians_left, pedestrians_right, bikes_left, bikes_right,
      cars_left, cars_right, is_calibration_done⟩
  | other => .error (.invalidType other)

/-- serde decode of `Vec<Camera>` from a JSON array. -/
def decodeCameraList (j : Json) : Except DeErr (List Camera) :=
  match j with
  | .arr xs => xs.mapM decodeCamera
  | other => .error (.invalidType other)

/-- The camera-list field of `CamerasResponse`: field name "cameras" with
serde alias "camera". -/
def camerasField (fs : List (String × Json)) : Except DeErr Json :=
  match jlookup fs "cameras" with
  | some v => .ok v
  | none =>
    match jlookup fs "camera" with
    | some v => .ok v
    | none => .error (.missingField "cameras")

/-- serde decode of `CamerasResponse`: flattened `Status` plus the camera
list under "cameras" or its alias "camera". -/
def deserializeCamerasResponse (j : Json) : Except DeErr CamerasResponse :=
  match j with
  | .obj fs => do
    let s ← deserializeStatus fs
    let cj ← camerasField fs
    let cams ← decodeCameraList cj
    Except.ok ⟨s, cams⟩
  | other => .error (.invalidType other)

/-- The decode of a `Report`'s `date` field within the serde derive: the
required field "date" through the humantime_serde `SystemTime` codec
(src/response.rs lines 97-99). -/
def deserializeReportDate (j : Json) : Except DeErr Nat :=
  match j with
  | .obj fs => getField fs "date" >>= asSystemTime
  | other => .error (.invalidType other)

/-- src/endpoint.rs `TrafficLevel` (Segments is the Default; serde renames
the variants to the literal strings "segments" / "instance"). -/
inductive TrafficLevel where
  | Segments
  | Instance
deriving DecidableEq

/-- The serde rename on `TrafficLevel`: `Segments` serializes as the string
"segments" and `Instance` as "instance". -/
def TrafficLevel.serialize : TrafficLevel → String
  | .Segments => "segments"
  | .Instance => "instance"

/-- src/endpoint.rs `TrafficRequest`; the two timestamps carry the
`format_rfc3339_millis` serializer. -/
structure TrafficRequest where
  level : TrafficLevel
  format : String
  id : String
  time_start : Nat
  time_end : Nat
deriving DecidableEq

/-- serde serialization of a `TrafficRequest` (fields in declaration order;
the timestamps go through `format_rfc3339_millis`, whose fmt::Error for
out-of-range times makes the whole serialization fail). -/
def TrafficRequest.toJson (r : TrafficRequest) : Option Json := do
  let ts ← format_rfc3339_millis r.time_start
  let te ← format_rfc3339_millis r.time_end
  some (.obj [("level", .str r.level.serialize), ("format", .str r.format),
    ("id", .str r.id), ("time_start", .str ts), ("time_end", .str te)])

/-- reqwest::Method as used by this library. -/
inductive Method where
  | GET
  | POST
deriving DecidableEq

/-- The closed set of endpoint descriptors of src/endpoint.rs, with the
per-call runtime data each one carries. -/
inductive EndpointDesc where
  | welcome
  | traffic (request : TrafficRequest)
  | liveTrafficSnapshot
  | allAvailableCameras
  | camerasBySegmentId (segment_id : String)
  | cameraByMacId (mac_id : String)
  | allSegments
  | segmentById (segment_id : String)
deriving DecidableEq

/-- Each `impl Endpoint`'s `const PATH`. -/
def EndpointDesc.PATH : EndpointDesc → String
  | .welcome => ""
  | .traffic _ => "reports/traffic"
  | .liveTrafficSnapshot => "reports/traffic_snapshot_live"
  | .allAvailableCameras => "cameras"
  | .camerasBySegmentId _ => "cameras/segment"
  | .cameraByMacId _ => "cameras"
  | .allSegments => "segments/all"
  | .segmentById _ => "segments/id"

/-- Each `impl Endpoint`'s `const METHOD`: only `Traffic` is POST. -/
def EndpointDesc.METHOD : EndpointDesc → Method
  | .traffic _ => .POST
  | _ => .GET

/-- `Endpoint::payload`: the trait default returns `None`; only the
`Traffic` impl overrides it, returning its owned `TrafficRequest`. -/
def EndpointDesc.payload : EndpointDesc → Option TrafficRequest
  | .traffic request => some request
  | _ => none

/-- `Endpoint::params`: the trait default returns an empty map and no
endpoint in the set overrides it. -/
def EndpointDesc.params : EndpointDesc → List (String × Option String)
  | _ => []

/-- `Endpoint::path_params`: the trait default returns `None`; the three
by-id lookup impls override it with their identifier field. -/
def EndpointDesc.path_params : EndpointDesc → Option String
  | .camerasBySegmentId segment_id => some segment_id
  | .cameraByMacId mac_id => some mac_id
  | .segmentById segment_id => some segment_id
  | _ => none

/-- src/client.rs `TELRAAM_NET`. -/
def TELRAAM_NET : String := "https://telraam-api.net"

/-- src/lib.rs `VER`, the API version path segment. -/
def VER : String := "v1"

/-- The URL built by `TelraamClient::send`:
`format!("{base}/{version}/{endpoint}", TELRAAM_NET, crate::VER, E::PATH)`,
then a '/' and the path params appended exactly when `path_params()`
returns a value. -/
def sendUrl (e : EndpointDesc) : String :=
  let url := TELRAAM_NET ++ "/" ++ VER ++ "/" ++ e.PATH
  match e.path_params with
  | some p => url ++ "/" ++ p
  | none => url

/-- First camera record of the repository's `test_deserialize_all_cameras`
fixture (the one with `time_end: null` and `is_calibration_done: "yes"`). -/
def camera1Json : Json := .obj [
  ("instance_id", .num 1692), ("mac", .num 202481587145269), ("user_id", .num 414),
  ("segment_id", .num 348917), ("direction", .bool true), ("status", .str "non_active"),
  ("manual", .bool false), ("time_added", .str "2019-10-02T19:42:54.343Z"),
  ("time_end", .null), ("last_data_package", .str "2021-05-02T10:56:15.402Z"),
  ("first_data_package", .str "1970-01-01T00:00:00.000Z"),
  ("pedestrians_left", .bool false), ("pedestrians_right", .bool true),
  ("bikes_left", .bool true), ("bikes_right", .bool true),
  ("cars_left", .bool true), ("cars_right", .bool true),
  ("is_calibration_done", .str "yes")]

/-- Second camera record of the same fixture (the archived instance with a
non-null `time_end` and `is_calibration_done: "no"`). -/
def camera2Json : Json := .obj [
  ("instance_id", .num 1691), ("mac", .num 202481587145269), ("user_id", .num 414),
  ("segment_id", .num 348917), ("direction", .bool false), ("status", .str "non_active"),
  ("manual", .bool false), ("time_added", .str "2019-06-26T07:00:37.546Z"),
  ("time_end", .str "2019-10-02T19:42:54.343Z"),
  ("last_data_package", .str "2021-01-05T08:33:37.913Z"),
  ("first_data_package", .str "1970-01-01T00:00:00.000Z"),
  ("pedestrians_left", .bool false), ("pedestrians_right", .bool true),
  ("bikes_left", .bool true), ("bikes_right", .bool true),
  ("cars_left", .bool true), ("cars_right", .bool true),
  ("is_calibration_done", .str "no")]

theorem checked_reports_eq (s : Status) (rs : List Report) :
    (TrafficResponse.mk s rs).checked_reports =
      if s.status_code ≤ 299 then .ok rs else .error (.non200Response s) := by
  unfold TrafficResponse.checked_reports Status.try_to_error
  by_cases h : s.status_code ≤ 299 <;> simp [h, Bind.bind, Except.bind]

theorem take_reports_eq (s : Status) (rs : List Report) :
    (TrafficResponse.mk s rs).take_reports =
      if s.status_code ≤ 299 then .ok rs else .error (.non200Response s) := by
  unfold TrafficResponse.take_reports Status.try_into_error
  by_cases h : s.status_code ≤ 299 <;> simp [h, Bind.bind, Except.bind]

theorem checked_cameras_eq (s : Status) (cams : List Camera) :
    (CamerasResponse.mk s cams).checked_cameras =
      if s.status_code ≤ 299 then .ok cams else .error (.non200Response s) := by
  unfold CamerasResponse.checked_cameras Status.try_to_error
  by_cases h : s.status_code ≤ 299 <;> simp [h, Bind.bind, Except.bind]

theorem take_cameras_eq (s : Status) (cams : List Camera) :
    (CamerasResponse.mk s cams).take_cameras =
      if s.status_code ≤ 299 then .ok cams else .error (.non200Response s) := by
  unfold CamerasResponse.take_cameras Status.try_into_error
  by_cases h : s.status_code ≤ 299 <;> simp [h, Bind.bind, Except.bind]

theorem snapshot_eq (s : Status) (g : GeoJson) :
    (TrafficSnapshotResponse.mk s g).snapshot =
      if s.status_code ≤ 299 then .ok g else .error (.non200Response s) := by
  unfold TrafficSnapshotResponse.snapshot Status.try_to_error
  by_cases h : s.status_code ≤ 299 <;> simp [h, Bind.bind, Except.bind]

theorem take_snapshot_eq (s : Status) (g : GeoJson) :
    (TrafficSnapshotResponse.mk s g).take_snapshot =
      if s.status_code ≤ 299 then .ok g else .error (.non200Response s) := by
  unfold TrafficSnapshotResponse.take_snapshot Status.try_into_error
  by_cases h : s.status_code ≤ 299 <;> simp [h, Bind.bind, Except.bind]

theorem segments_eq (s : Status) (g : GeoJson) :
    (SegmentResponse.mk s g).segments =
      if s.status_code ≤ 299 then .ok g else .error (.non200Response s) := by
  unfold SegmentResponse.segments Status.try_to_error
  by_cases h : s.status_code ≤ 299 <;> simp [h, Bind.bind, Except.bind]

theorem take_segments_eq (s : Status) (g : GeoJson) :
    (SegmentResponse.mk s g).take_segments =
      if s.status_code ≤ 299 then .ok g else .error (.non200Response s) := by
  unfold SegmentResponse.take_segments Status.try_into_error
  by_cases h : s.status_code ≤ 299 <;> simp [h, Bind.bind, Except.bind]

/-- Claim C1: for every deserialized response value whose status code is at
most 299, both the borrowing payload accessor (reports / cameras / snapshot /
segments) and the consuming accessor (take_reports / take_cameras /
take_snapshot / take_segments) return the payload unchanged; for a status
code above 299 both fail with the non-success error carrying exactly that
status code and message, and the boundary is exactly 299 (299 succeeds, 300
fails). -/
theorem claim_C1 :
    (∀ (s : Status) (rs : List Report),
      (TrafficResponse.mk s rs).checked_reports =
        (if s.status_code ≤ 299 then .ok rs else .error (.non200Response s)) ∧
      (TrafficResponse.mk s rs).take_reports =
        (if s.status_code ≤ 299 then .ok rs else .error (.non200Response s))) ∧
    (∀ (s : Status) (cams : List Camera),
      (CamerasResponse.mk s cams).checked_cameras =
        (if s.status_code ≤ 299 then .ok cams else .error (.non200Response s)) ∧
      (CamerasResponse.mk s cams).take_cameras =
        (if s.status_code ≤ 299 then .ok cams else .error (.non200Response s))) ∧
    (∀ (s : Status) (g : GeoJson),
      (TrafficSnapshotResponse.mk s g).snapshot =
        (if s.status_code ≤ 299 then .ok g else .error (.non200Response s)) ∧
      (TrafficSnapshotResponse.mk s g).take_snapshot =
        (if s.status_code ≤ 299 then .ok g else .error (.non200Response s))) ∧
    (∀ (s : Status) (g : GeoJson),
      (SegmentResponse.mk s g).segments =
        (if s.status_code ≤ 299 then .ok g else .error (.non200Response s)) ∧
      (SegmentResponse.mk s g).take_segments =
        (if s.status_code ≤ 299 then .ok g else .error (.non200Response s))) ∧
    (∀ (msg : String) (rs : List Report),
      (TrafficResponse.mk ⟨299, msg⟩ rs).checked_reports = .ok rs ∧
      (TrafficResponse.mk ⟨299, msg⟩ rs).take_reports = .ok rs ∧
      (TrafficResponse.mk ⟨300, msg⟩ rs).checked_reports =
        .error (.non200Response ⟨300, msg⟩) ∧
      (TrafficResponse.mk ⟨300, msg⟩ rs).take_reports =
        .error (.non200Response ⟨300, msg⟩)) := by
  refine ⟨fun s rs => ⟨checked_reports_eq s rs, take_reports_eq s rs⟩,
    fun s cams => ⟨checked_cameras_eq s cams, take_cameras_eq s cams⟩,
    fun s g => ⟨snapshot_eq s g, take_snapshot_eq s g⟩,
    fun s g => ⟨segments_eq s g, take_segments_eq s g⟩,
    fun msg rs => ⟨?_, ?_, ?_, ?_⟩⟩
  · rw [checked_reports_eq]; simp
  · rw [take_reports_eq]; simp
  · rw [checked_reports_eq]; simp
  · rw [take_reports_eq]; simp

/-- Claim C5: the status accessor of every deserialized response is a total
projection that never produces an error, whatever the status code; the
non-success application error is surfaced only through the
payload-extraction accessors. -/
theorem claim_C5 :
    (∀ s : Status, (WelcomeResponse.mk s).status = s) ∧
    (∀ (s : Status) (rs : List Report), (TrafficResponse.mk s rs).status = s) ∧
    (∀ (s : Status) (g : GeoJson), (TrafficSnapshotResponse.mk s g).status = s) ∧
    (∀ (s : Status) (cams : List Camera), (CamerasResponse.mk s cams).status = s) ∧
    (∀ (s : Status) (g : GeoJson), (SegmentResponse.mk s g).status = s) ∧
    (∀ (s : Status) (rs : List Report),
      ((∃ e, (TrafficResponse.mk s rs).checked_reports = .error e) ↔
        299 < s.status_code) ∧
      ((∃ e, (TrafficResponse.mk s rs).take_reports = .error e) ↔
        299 < s.status_code)) := by
  refine ⟨fun s => rfl, fun s rs => rfl, fun s g => rfl, fun s cams => rfl,
    fun s g => rfl, fun s rs => ⟨?_, ?_⟩⟩
  · rw [checked_reports_eq]
    by_cases h : s.status_code ≤ 299 <;> simp [h] <;> omega
  · rw [take_reports_eq]
    by_cases h : s.status_code ≤ 299 <;> simp [h] <;> omega

/-- Claim C2: the Camera is_calibration_done decoder maps the JSON string
"yes" to true and "no" to false; every other JSON string fails with the
unknown-variant decode error naming the offending value; and no JSON input
other than those two strings is accepted. -/
theorem claim_C2 (v : String) (hyes : v ≠ "yes") (hno : v ≠ "no") :
    from_yes_no (.str "yes") = .ok true ∧
    from_yes_no (.str "no") = .ok false ∧
    from_yes_no (.str v) = .error (.unknownVariant v ["yes", "no"]) ∧
    (∀ j : Json, (∃ b, from_yes_no j = .ok b) ↔
      (j = .str "yes" ∨ j = .str "no")) := by
  refine ⟨rfl, rfl, ?_, ?_⟩
  · simp [from_yes_no, hyes, hno]
  · intro j
    constructor
    · rintro ⟨b, hb⟩
      cases j <;> simp [from_yes_no] at hb
      next s =>
        by_cases h1 : s = "yes"
        · exact Or.inl (by rw [h1])
        · by_cases h2 : s = "no"
          · exact Or.inr (by rw [h2])
          · simp [h1, h2] at hb
    · rintro (h | h) <;> subst h
      · exact ⟨true, rfl⟩
      · exact ⟨false, rfl⟩

theorem claim_C2_witness :
    ("maybe" : String) ≠ "yes" ∧ ("maybe" : String) ≠ "no" ∧
    from_yes_no (.str "maybe") = .error (.unknownVariant "maybe" ["yes", "no"]) :=
  ⟨by decide, by decide, (claim_C2 "maybe" (by decide) (by decide)).2.2.1⟩

/-- Claim C10: the yes/no codec round-trips: serializing a boolean yields
the string "yes" for true and "no" for false, and deserializing that string
yields the boolean back, so deserialize after serialize is the identity on
booleans. -/
theorem claim_C10 :
    to_yes_no true = .str "yes" ∧ to_yes_no false = .str "no" ∧
    ∀ b : Bool, from_yes_no (to_yes_no b) = .ok b := by
  refine ⟨rfl, rfl, fun b => ?_⟩
  cases b <;> rfl

/-- Claim C8: the body with only the msg field decodes to a Welcome
response whose message is that string and whose status code is the
default 0. -/
theorem claim_C8 :
    deserializeWelcomeResponse
        (.obj [("msg", .str "hello! Telraam server 2.0 is up and running")]) =
      .ok ⟨⟨0, "hello! Telraam server 2.0 is up and running"⟩⟩ := by
  rfl

/-- Claim C6: across the endpoint set, payload() is none except for the
Traffic descriptor (the single POST endpoint), which returns its owned
TrafficRequest; params() is the empty map for every descriptor; and
path_params() returns a value exactly for the three by-id lookups
(CamerasBySegmentId, CameraByMacId, SegmentById). -/
theorem claim_C6 :
    (∀ e : EndpointDesc, e.params = []) ∧
    (∀ r : TrafficRequest, (EndpointDesc.traffic r).payload = some r) ∧
    (∀ r : TrafficRequest, (EndpointDesc.traffic r).METHOD = .POST) ∧
    EndpointDesc.welcome.payload = none ∧
    EndpointDesc.liveTrafficSnapshot.payload = none ∧
    EndpointDesc.allAvailableCameras.payload = none ∧
    (∀ s : String, (EndpointDesc.camerasBySegmentId s).payload = none) ∧
    (∀ m : String, (EndpointDesc.cameraByMacId m).payload = none) ∧
    EndpointDesc.allSegments.payload = none ∧
    (∀ s : String, (EndpointDesc.segmentById s).payload = none) ∧
    (∀ s : String, (EndpointDesc.camerasBySegmentId s).path_params = some s) ∧
    (∀ m : String, (EndpointDesc.cameraByMacId m).path_params = some m) ∧
    (∀ s : String, (EndpointDesc.segmentById s).path_params = some s) ∧
    EndpointDesc.welcome.path_params = none ∧
    (∀ r : TrafficRequest, (EndpointDesc.traffic r).path_params = none) ∧
    EndpointDesc.liveTrafficSnapshot.path_params = none ∧
    EndpointDesc.allAvailableCameras.path_params = none ∧
    EndpointDesc.allSegments.path_params = none := by
  exact ⟨fun e => by cases e <;> rfl, fun r => rfl, fun r => rfl, rfl, rfl, rfl,
    fun s => rfl, fun m => rfl, rfl, fun s => rfl, fun s => rfl, fun m => rfl,
    fun s => rfl, rfl, fun r => rfl, rfl, rfl, rfl⟩

/-- Claim C9: deserializing a CamerasResponse accepts the camera list under
the field name "cameras" or under its serde alias "camera": two bodies that
are identical except for which of the two names carries the list decode to
the same result. -/
theorem claim_C9 (rest : List (String × Json)) (v : Json)
    (h1 : jlookup rest "cameras" = none) :
    deserializeCamerasResponse (.obj (("cameras", v) :: rest)) =
      deserializeCamerasResponse (.obj (("camera", v) :: rest)) := by
  have hstatus : deserializeStatus (("cameras", v) :: rest) =
      deserializeStatus (("camera", v) :: rest) := by
    unfold deserializeStatus
    simp [jlookup]
  have hcams : camerasField (("cameras", v) :: rest) =
      camerasField (("camera", v) :: rest) := by
    unfold camerasField
    simp [jlookup, h1]
  simp only [deserializeCamerasResponse]
  rw [hstatus, hcams]

theorem claim_C9_witness :
    deserializeCamerasResponse (.obj (("cameras", .arr [camera1Json]) ::
        [("status_code", .num 200), ("message", .str "ok")])) =
      deserializeCamerasResponse (.obj (("camera", .arr [camera1Json]) ::
        [("status_code", .num 200), ("message", .str "ok")])) :=
  claim_C9 [("status_code", .num 200), ("message", .str "ok")] (.arr [camera1Json])
    (by rfl)

/-- Claim C7: the humantime_serde timestamp codecs decode JSON null to an
absent value and RFC3339 strings to the equivalent instant: the fixture
camera with time_end null decodes to an absent end-time, the fixture camera
with time_end "2019-10-02T19:42:54.343Z" decodes to the instant that
formats back to exactly that string, and a Report date field holding
"2020-10-30T07:00:00.000Z" decodes to Unix time 1604041200. -/
theorem claim_C7 :
    asOptSystemTime .null = .ok none ∧
    (decodeCamera camera1Json).map Camera.time_end = .ok none ∧
    (decodeCamera camera2Json).map Camera.time_end =
      .ok (some 1570045374343000000) ∧
    asOptSystemTime (.str "2019-10-02T19:42:54.343Z") =
      .ok (some 1570045374343000000) ∧
    format_rfc3339_millis 1570045374343000000 = some "2019-10-02T19:42:54.343Z" ∧
    deserializeReportDate (.obj [("instance_id", .num (-1)),
        ("date", .str "2020-10-30T07:00:00.000Z")]) =
      .ok (1604041200 * 1000000000) ∧
    asSystemTime (.str "2020-10-30T07:00:00.000Z") = .ok (1604041200 * 1000000000) := by
  refine ⟨rfl, ?_, ?_, rfl, rfl, rfl, rfl⟩ <;> rfl

/-- Claim C4: send builds the request URL as the base url, "/", the api
version, "/", the descriptor's constant PATH, and appends "/" followed by
the path params exactly when path_params() returns a value; for
CameraByMacId with mac id m the URL ends in "cameras/" followed by m. -/
theorem claim_C4 :
    (∀ e : EndpointDesc, sendUrl e =
      TELRAAM_NET ++ "/" ++ VER ++ "/" ++ e.PATH ++
        (match e.path_params with | some p => "/" ++ p | none => "")) ∧
    (∀ m : String,
      sendUrl (.cameraByMacId m) = "https://telraam-api.net/v1/cameras/" ++ m) ∧
    (∀ m : String, ∃ pre : String,
      sendUrl (.cameraByMacId m) = pre ++ ("cameras/" ++ m)) := by
  refine ⟨fun e => ?_, fun m => rfl, fun m => ⟨"https://telraam-api.net/v1/", rfl⟩⟩
  cases e <;> rfl

/-- Claim C3: serializing a TrafficRequest renders the level field as
exactly "segments" (Segments) or "instance" (Instance) and the time_start /
time_end fields as RFC3339 strings with exactly millisecond precision (a
three-digit fraction before the final Z); the timestamp 2020-10-30
07:00:00Z serializes to exactly "2020-10-30T07:00:00.000Z". -/
theorem claim_C3 :
    TrafficLevel.serialize .Segments = "segments" ∧
    TrafficLevel.serialize .Instance = "instance" ∧
    (∀ (r : TrafficRequest) (ts te : String),
      format_rfc3339_millis r.time_start = some ts →
      format_rfc3339_millis r.time_end = some te →
      r.toJson = some (.obj [("level", .str r.level.serialize),
        ("format", .str r.format), ("id", .str r.id),
        ("time_start", .str ts), ("time_end", .str te)])) ∧
    (∀ (t : Nat) (out : String), format_rfc3339_millis t = some out →
      ∃ (pre : String) (ms : Nat), out = pre ++ "." ++ pad3millis ms ++ "Z" ∧
        ms < 1000 ∧ (pad3millis ms).length = 3) ∧
    parse_rfc3339_weak "2020-10-30 07:00:00Z" = some 1604041200000000000 ∧
    format_rfc3339_millis 1604041200000000000 = some "2020-10-30T07:00:00.000Z" := by
  refine ⟨rfl, rfl, ?_, ?_, rfl, rfl⟩
  · intro r ts te h1 h2
    simp [TrafficRequest.toJson, h1, h2]
  · intro t out h
    unfold format_rfc3339_millis at h
    by_cases hb : t / 1000000000 ≥ 253402300800
    · simp [hb] at h
    · simp only [hb, if_neg, ite_false, not_le] at h
      rcases hcv : civilFromSecs (t / 1000000000) with ⟨year, mon, mday⟩
      rw [hcv] at h
      simp only [Option.some.injEq] at h
      refine ⟨pad4 year ++ "-" ++ pad2 mon ++ "-" ++ pad2 mday ++ "T" ++
        pad2 (t / 1000000000 % 86400 / 3600) ++ ":" ++
        pad2 (t / 1000000000 % 86400 / 60 % 60) ++ ":" ++
        pad2 (t / 1000000000 % 86400 % 60), t % 1000000000 / 1000000,
        h.symm, by omega, rfl⟩

theorem claim_C3_witness :
    TrafficRequest.toJson
        ⟨.Segments, "per-hour", "348917", 1604041200000000000, 1604048400000000000⟩ =
      some (.obj [("level", .str "segments"), ("format", .str "per-hour"),
        ("id", .str "348917"), ("time_start", .str "2020-10-30T07:00:00.000Z"),
        ("time_end", .str "2020-10-30T09:00:00.000Z")]) :=
  claim_C3.2.2.1
    ⟨.Segments, "per-hour", "348917", 1604041200000000000, 1604048400000000000⟩
    "2020-10-30T07:00:00.000Z" "2020-10-30T09:00:00.000Z" rfl rfl
